import Mathlib

/-!
# App.js: the content-generation form

A shallow embedding of `frontend/src/App.js`: the component's four pieces of
state (`formData`, `result`, `loading`, `error`), the `handleSubmit` handler,
the three `onChange` handlers, and what the JSX of the results panel and the
submit button puts on screen for a given state.

`handleSubmit` is asynchronous with one suspension point (the `await` on
`axios.post`).  It is embedded as two atomic steps: `handleSubmitStart` (the
code up to the `await`) and `handleSubmitSettle` (the `try` continuation or the
`catch` block, followed by `finally`).  The state updates made inside one step
reach the screen together.

React prints strings and numbers used as children, prints nothing for booleans,
`null` and `undefined`, and throws on a plain object, which takes the page off
the screen.  `childText` records this, and a panel counts as displayed only when
its condition holds and React can print its children.
-/

namespace App

/-! ## JavaScript values -/

/-- A JavaScript value as it reaches the component: a parsed JSON body, or
`undefined`/`null`.  A number is carried by the decimal text that JavaScript
prints for it (which is also what React puts on screen); zero of either sign
prints as `0`. -/
inductive JSValue where
  | undefined : JSValue
  | null : JSValue
  | bool (b : Bool) : JSValue
  | num (text : String) : JSValue
  | str (s : String) : JSValue
  | arr (items : List JSValue) : JSValue
  | obj (fields : List (String × JSValue)) : JSValue

namespace JSValue

/-- JavaScript truthiness (`ToBoolean`): `undefined`, `null`, `false`, zero,
`NaN` and the empty string are falsy, everything else is truthy. -/
def truthy : JSValue → Bool
  | undefined => false
  | null => false
  | bool b => b
  | num text => !(text == "0" || text == "NaN")
  | str s => !(s == "")
  | arr _ => true
  | obj _ => true

/-- Whether the value is `null` or `undefined`. -/
def nullish : JSValue → Bool
  | undefined => true
  | null => true
  | _ => false

/-- Property read `v.key` on a value that is not nullish.  An object yields its
own property or `undefined`.  Strings, numbers, booleans and arrays have none of
the properties this component reads (`data`, `detail`, `success`, `content`,
`image_prompt`, `metadata`, `processing_time`, `model_type`). -/
def getProp (v : JSValue) (key : String) : JSValue :=
  match v with
  | obj fields => (fields.lookup key).getD undefined
  | _ => undefined

/-- Whether the value is an object with an own property `key`. -/
def hasOwn (v : JSValue) (key : String) : Bool :=
  match v with
  | obj fields => (fields.lookup key).isSome
  | _ => false

/-- Optional chaining `v?.key`. -/
def optChain (v : JSValue) (key : String) : JSValue :=
  if v.nullish then undefined else v.getProp key

/-- The operator `a || b`. -/
def or (a b : JSValue) : JSValue :=
  if a.truthy then a else b

mutual
/-- The text React puts on screen for a value used as a child `{v}`:
strings and numbers are printed, booleans, `null` and `undefined` print nothing,
an array prints its items one after the other, and a plain object makes React
throw (`none`). -/
def childText : JSValue → Option String
  | undefined => some ""
  | null => some ""
  | bool _ => some ""
  | num text => some text
  | str s => some s
  | arr items => childTextList items
  | obj _ => none
/-- The text of a list of children. -/
def childTextList : List JSValue → Option String
  | [] => some ""
  | v :: vs =>
    match childText v, childTextList vs with
    | some a, some b => some (a ++ b)
    | _, _ => none
end

/-- Whether React can print the value as a child, that is, does not throw on
it. -/
def printable (v : JSValue) : Bool := v.childText.isSome

end JSValue

open JSValue

/-! ## Component state -/

/-- The `formData` object (App.js lines 5-9). -/
structure FormData where
  user_instruction : String
  tone : String
  style : String
  deriving DecidableEq, Repr

/-- An outbound HTTP request. -/
structure Request where
  method : String
  url : String
  body : JSValue

/-- The URL given to `axios.post` (line 19). -/
def endpoint : String := "http://localhost:8000/api/generate"

/-- The fallback error text (line 22). -/
def fallbackMessage : String := "Failed to generate content"

/-- The JSON object axios sends for a `formData` value. -/
def FormData.toJSValue (f : FormData) : JSValue :=
  obj [("user_instruction", str f.user_instruction), ("tone", str f.tone), ("style", str f.style)]

/-- The state of the component: the four `useState` cells, together with two
bookkeeping fields that the code does not store, the number of requests awaiting
their response and the log of requests issued so far. -/
structure AppState where
  formData : FormData
  result : JSValue
  loading : Bool
  error : JSValue
  pending : Nat
  requests : List Request

/-- The state on mount (lines 5-12). -/
def initialState : AppState :=
  { formData :=
      { user_instruction := "", tone := "Fun and Playful", style := "Short caption with 3-4 hashtags" }
    result := null
    loading := false
    error := null
    pending := 0
    requests := [] }

/-! ## Handlers -/

/-- The description `onChange` handler (line 46). -/
def editDescription (s : AppState) (v : String) : AppState :=
  { s with formData := { s.formData with user_instruction := v } }

/-- The tone `onChange` handler (line 56). -/
def editTone (s : AppState) (v : String) : AppState :=
  { s with formData := { s.formData with tone := v } }

/-- The style `onChange` handler (line 68). -/
def editStyle (s : AppState) (v : String) : AppState :=
  { s with formData := { s.formData with style := v } }

/-- How the promise returned by `axios.post` settles: fulfilled with a response
whose `data` is the parsed body (2xx), or rejected with an error whose
`response` property is `undefined` (no response was received) or the response
object. -/
inductive Outcome where
  | fulfilled (data : JSValue) : Outcome
  | rejected (response : JSValue) : Outcome

/-- The response object of a non-2xx reply with the given parsed body. -/
def errorResponse (status : String) (data : JSValue) : JSValue :=
  obj [("data", data), ("status", num status)]

/-- The code of `handleSubmit` up to the `await` (lines 15-19): `loading` is set,
`error` is cleared and the POST is issued. -/
def handleSubmitStart (s : AppState) : AppState :=
  { s with
    loading := true
    error := null
    pending := s.pending + 1
    requests := s.requests ++ [{ method := "POST", url := endpoint, body := s.formData.toJSValue }] }

/-- The expression `err.response?.data?.detail` (line 22), for an error whose
`response` property is the given value. -/
def errorDetail (response : JSValue) : JSValue :=
  (response.optChain "data").optChain "detail"

/-- The value stored by the `catch` block (line 22):
`err.response?.data?.detail || 'Failed to generate content'`. -/
def errorMessage (response : JSValue) : JSValue :=
  JSValue.or (errorDetail response) (str fallbackMessage)

/-- The code of `handleSubmit` after the `await` (lines 20-25). -/
def handleSubmitSettle (s : AppState) (o : Outcome) : AppState :=
  match o with
  | .fulfilled data => { s with result := data, loading := false, pending := s.pending - 1 }
  | .rejected response =>
    { s with error := errorMessage response, loading := false, pending := s.pending - 1 }

/-- One whole run of `handleSubmit`, from the submit event to the settled
request. -/
def handleSubmit (s : AppState) (o : Outcome) : AppState :=
  handleSubmitSettle (handleSubmitStart s) o

/-! ## What is on screen -/

/-- What a JSX expression `{c && <panel/>}` leaves in the tree: the panel when
`c` is truthy, and otherwise the falsy value of `c` itself, as a child. -/
inductive Slot (α : Type) where
  | shown (panel : α) : Slot α
  | bare (v : JSValue) : Slot α

/-- Whether the panel of a slot is displayed. -/
def Slot.isShown {α : Type} : Slot α → Bool
  | .shown _ => true
  | .bare _ => false

/-- The expression `c && panel`. -/
def guardSlot {α : Type} (c : JSValue) (panel : α) : Slot α :=
  if c.truthy then .shown panel else .bare c

/-- The success panel (lines 90-107): the child of the content paragraph, the
image-prompt block with the child of its paragraph, and the metadata block with
the children printed after `Time:` and `Model:`. -/
structure SuccessPanel where
  content : JSValue
  imagePrompt : Slot JSValue
  metadata : Slot (JSValue × JSValue)

/-- The results panel (lines 87-113), one slot per JSX expression: the loading
panel, the error panel with its child, the success panel, the idle
placeholder. -/
structure ResultsPanel where
  loadingPanel : Slot Unit
  errorPanel : Slot JSValue
  successPanel : Slot SuccessPanel
  idlePlaceholder : Slot Unit

/-- Whether React can print every child of the success panel: the content, the
image prompt or the falsy value left in its place, and the two metadata values
or the falsy value left in their place. -/
def SuccessPanel.printable (p : SuccessPanel) : Bool :=
  p.content.printable &&
  (match p.imagePrompt with
    | .shown v => v.printable
    | .bare v => v.printable) &&
  (match p.metadata with
    | .shown (time, model) => time.printable && model.printable
    | .bare v => v.printable)

/-- The success panel built from `result` (lines 90-107). -/
def renderSuccess (result : JSValue) : SuccessPanel :=
  { content := result.getProp "content"
    imagePrompt := guardSlot (result.getProp "image_prompt") (result.getProp "image_prompt")
    metadata :=
      guardSlot (result.getProp "metadata")
        ((result.getProp "metadata").getProp "processing_time",
         (result.getProp "metadata").getProp "model_type") }

/-- The expression `result && result.success && (...)` (line 89). -/
def renderSuccessSlot (result : JSValue) : Slot SuccessPanel :=
  if result.truthy then guardSlot (result.getProp "success") (renderSuccess result)
  else .bare result

/-- The results panel for a state (lines 87-113). -/
def renderResults (s : AppState) : ResultsPanel :=
  { loadingPanel := guardSlot (bool s.loading) ()
    errorPanel := guardSlot s.error s.error
    successPanel := renderSuccessSlot s.result
    idlePlaceholder := guardSlot (bool (!s.loading && !s.error.truthy && !s.result.truthy)) () }

/-- The `disabled` attribute of the submit button (line 77). -/
def submitDisabled (s : AppState) : Bool := s.loading

/-- The loading panel is displayed. -/
def showsLoading (s : AppState) : Bool := (renderResults s).loadingPanel.isShown

/-- The idle placeholder is displayed. -/
def showsIdle (s : AppState) : Bool := (renderResults s).idlePlaceholder.isShown

/-- The text in the error panel: `none` when the condition of line 88 fails or
React throws on the child `{error}`. -/
def errorText (s : AppState) : Option String :=
  match (renderResults s).errorPanel with
  | .shown child => child.childText
  | .bare _ => none

/-- The error panel is displayed: the condition of line 88 holds and React can
print the child `{error}`. -/
def showsError (s : AppState) : Bool := (errorText s).isSome

/-- The success panel on screen: `none` when the condition of line 89 fails or
React throws on one of the panel's children (lines 93, 98, 103, 104). -/
def displayedSuccess (s : AppState) : Option SuccessPanel :=
  match (renderResults s).successPanel with
  | .shown p => if p.printable then some p else none
  | .bare _ => none

/-- The success panel is displayed: the condition of line 89 holds and React can
print every child of the panel. -/
def showsSuccess (s : AppState) : Bool := (displayedSuccess s).isSome

/-- Whether React can print every child of the results panel, so that the page
stays on screen: a child React throws on takes the whole page down. -/
def pageRenders (s : AppState) : Bool :=
  (match (renderResults s).loadingPanel with
    | .shown _ => true
    | .bare v => v.printable) &&
  (match (renderResults s).errorPanel with
    | .shown child => child.printable
    | .bare v => v.printable) &&
  (match (renderResults s).successPanel with
    | .shown p => p.printable
    | .bare v => v.printable) &&
  (match (renderResults s).idlePlaceholder with
    | .shown _ => true
    | .bare v => v.printable)

/-! ## Runs of the component -/

/-- The events the component reacts to. -/
inductive Event where
  | description (v : String) : Event
  | tone (v : String) : Event
  | style (v : String) : Event
  | submit : Event
  | settle (o : Outcome) : Event

/-- Whether the event is a field edit. -/
def Event.isEdit : Event → Bool
  | .description _ => true
  | .tone _ => true
  | .style _ => true
  | _ => false

/-- The state after an event. -/
def step (s : AppState) : Event → AppState
  | .description v => editDescription s v
  | .tone v => editTone s v
  | .style v => editStyle s v
  | .submit => handleSubmitStart s
  | .settle o => handleSubmitSettle s o

/-- The state after a sequence of events, oldest first. -/
def run (s : AppState) (es : List Event) : AppState :=
  es.foldl step s

/-- States reachable from the initial state: fields are edited, submissions are
started (whether or not the button is enabled), and a response arrives only for
a request that awaits one. -/
inductive Reachable : AppState → Prop where
  | init : Reachable initialState
  | edit (s : AppState) (e : Event) : Reachable s → e.isEdit = true → Reachable (step s e)
  | submit (s : AppState) : Reachable s → Reachable (handleSubmitStart s)
  | settle (s : AppState) (o : Outcome) :
      Reachable s → 0 < s.pending → Reachable (handleSubmitSettle s o)

/-- States reachable when a submission is started only while the submit button
is enabled. -/
inductive ReachableGuarded : AppState → Prop where
  | init : ReachableGuarded initialState
  | edit (s : AppState) (e : Event) :
      ReachableGuarded s → e.isEdit = true → ReachableGuarded (step s e)
  | submit (s : AppState) :
      ReachableGuarded s → submitDisabled s = false → ReachableGuarded (handleSubmitStart s)
  | settle (s : AppState) (o : Outcome) :
      ReachableGuarded s → 0 < s.pending → ReachableGuarded (handleSubmitSettle s o)

/-- States reached from the initial state by field edits only. -/
inductive ReachableByEdits : AppState → Prop where
  | init : ReachableByEdits initialState
  | edit (s : AppState) (e : Event) :
      ReachableByEdits s → e.isEdit = true → ReachableByEdits (step s e)

/-! ## Basic facts -/

theorem guardSlot_isShown {α : Type} (c : JSValue) (panel : α) :
    (guardSlot c panel).isShown = c.truthy := by
  unfold guardSlot
  cases c.truthy <;> rfl

theorem showsLoading_eq (s : AppState) : showsLoading s = s.loading := by
  simp [showsLoading, renderResults, guardSlot_isShown, truthy]

theorem printable_of_falsy {v : JSValue} (h : v.truthy = false) : v.printable = true := by
  cases v <;> first | rfl | cases h

theorem errorText_of_truthy (s : AppState) (h : s.error.truthy = true) :
    errorText s = s.error.childText := by
  simp [errorText, renderResults, guardSlot, h]

theorem showsError_eq (s : AppState) :
    showsError s = (s.error.truthy && s.error.printable) := by
  unfold showsError
  cases h : s.error.truthy
  · simp [errorText, renderResults, guardSlot, h]
  · rw [errorText_of_truthy s h]
    simp [printable]

theorem showsIdle_eq (s : AppState) :
    showsIdle s = (!s.loading && !s.error.truthy && !s.result.truthy) := by
  simp [showsIdle, renderResults, guardSlot_isShown, truthy]

theorem showsSuccess_eq (s : AppState) :
    showsSuccess s =
      (s.result.truthy && (s.result.getProp "success").truthy &&
        (renderSuccess s.result).printable) := by
  unfold showsSuccess displayedSuccess renderResults renderSuccessSlot guardSlot
  cases h : s.result.truthy
  · simp
  · cases h2 : (s.result.getProp "success").truthy
    · simp
    · cases h3 : (renderSuccess s.result).printable <;> simp [h3]

/-- In every reachable state the error cell is empty while `loading` is set. -/
theorem Reachable.error_null_of_loading {s : AppState} (h : Reachable s) :
    s.loading = true → s.error = null := by
  induction h with
  | init => intro h; cases h
  | edit s e _ he ih =>
    cases e <;> first | exact ih | cases he
  | submit s _ _ => intro _; rfl
  | settle s o _ _ _ =>
    intro h
    cases o <;> cases h

/-- The bookkeeping of requests when submissions respect the disabled button:
`loading` is set with exactly one request awaiting its response, and clear with
none. -/
theorem ReachableGuarded.loading_pending {s : AppState} (h : ReachableGuarded s) :
    (s.loading = true ∧ s.pending = 1) ∨ (s.loading = false ∧ s.pending = 0) := by
  induction h with
  | init => exact Or.inr ⟨rfl, rfl⟩
  | edit s e _ he ih =>
    cases e <;> first | exact ih | cases he
  | submit s _ hd ih =>
    rcases ih with ⟨hl, _⟩ | ⟨_, hp⟩
    · simp [submitDisabled, hl] at hd
    · exact Or.inl ⟨rfl, by simp [handleSubmitStart, hp]⟩
  | settle s o _ hp ih =>
    rcases ih with ⟨_, hp1⟩ | ⟨_, hp0⟩
    · cases o <;> exact Or.inr ⟨rfl, by simp [handleSubmitSettle, hp1]⟩
    · omega

theorem errorMessage_truthy (response : JSValue) : (errorMessage response).truthy = true := by
  unfold errorMessage JSValue.or
  cases h : (errorDetail response).truthy
  · simp [truthy, fallbackMessage]
  · simpa using h

/-! ## The view states of the results panel -/

/-- C1, as stated, fails: after a successful submission the next submission
displays the loading panel together with the success panel of the previous
result, and when that second request fails the error panel is displayed together
with the same success panel. -/
theorem stale_success_panel_counterexample :
    Reachable (run initialState
        [.submit, .settle (.fulfilled (obj [("success", bool true), ("content", str "first")])),
         .submit]) ∧
    showsLoading (run initialState
        [.submit, .settle (.fulfilled (obj [("success", bool true), ("content", str "first")])),
         .submit]) = true ∧
    showsSuccess (run initialState
        [.submit, .settle (.fulfilled (obj [("success", bool true), ("content", str "first")])),
         .submit]) = true ∧
    Reachable (run initialState
        [.submit, .settle (.fulfilled (obj [("success", bool true), ("content", str "first")])),
         .submit, .settle (.rejected undefined)]) ∧
    showsError (run initialState
        [.submit, .settle (.fulfilled (obj [("success", bool true), ("content", str "first")])),
         .submit, .settle (.rejected undefined)]) = true ∧
    showsSuccess (run initialState
        [.submit, .settle (.fulfilled (obj [("success", bool true), ("content", str "first")])),
         .submit, .settle (.rejected undefined)]) = true := by
  have h1 : Reachable (handleSubmitStart initialState) := Reachable.submit _ Reachable.init
  have h2 := Reachable.settle _
    (.fulfilled (obj [("success", bool true), ("content", str "first")])) h1 (by decide)
  have h3 := Reachable.submit _ h2
  have h4 := Reachable.settle _ (.rejected undefined) h3 (by decide)
  exact ⟨h3, by decide, by decide, h4, by decide, by decide⟩

/-- C1, amended: in every reachable state the idle placeholder is displayed with
none of the loading, error and success panels, and the loading panel and the
error panel are never displayed together; a new submission displays the loading
panel and removes the error panel and the idle placeholder. -/
theorem view_states_exclusive (s : AppState) (h : Reachable s) :
    (showsIdle s = true →
      showsLoading s = false ∧ showsError s = false ∧ showsSuccess s = false) ∧
    ¬ (showsLoading s = true ∧ showsError s = true) ∧
    (showsLoading (handleSubmitStart s) = true ∧ showsError (handleSubmitStart s) = false ∧
      showsIdle (handleSubmitStart s) = false) := by
  refine ⟨?_, ?_, ?_⟩
  · intro hi
    rw [showsIdle_eq] at hi
    rw [showsLoading_eq, showsError_eq, showsSuccess_eq]
    simp only [Bool.and_eq_true, Bool.not_eq_true'] at hi
    simp [hi.1.1, hi.1.2, hi.2]
  · rintro ⟨hl, he⟩
    rw [showsLoading_eq] at hl
    rw [showsError_eq, h.error_null_of_loading hl] at he
    cases he
  · simp [showsLoading_eq, showsError_eq, showsIdle_eq, handleSubmitStart, truthy]

/-- The amended C1 at the state reached by one submission that failed. -/
theorem view_states_exclusive_witness :
    Reachable (handleSubmit initialState (.rejected undefined)) ∧
    ((showsIdle (handleSubmit initialState (.rejected undefined)) = true →
      showsLoading (handleSubmit initialState (.rejected undefined)) = false ∧
      showsError (handleSubmit initialState (.rejected undefined)) = false ∧
      showsSuccess (handleSubmit initialState (.rejected undefined)) = false) ∧
    ¬ (showsLoading (handleSubmit initialState (.rejected undefined)) = true ∧
      showsError (handleSubmit initialState (.rejected undefined)) = true) ∧
    (showsLoading (handleSubmitStart (handleSubmit initialState (.rejected undefined))) = true ∧
      showsError (handleSubmitStart (handleSubmit initialState (.rejected undefined))) = false ∧
      showsIdle (handleSubmitStart (handleSubmit initialState (.rejected undefined))) = false)) :=
  have h : Reachable (handleSubmit initialState (.rejected undefined)) :=
    Reachable.settle _ _ (Reachable.submit _ Reachable.init) (by decide)
  ⟨h, view_states_exclusive _ h⟩

/-- C9: in the initial state and in every state reached from it by field edits
only, `result` and `error` are `null` and `loading` is false, and the results
panel displays the idle placeholder and none of the loading, error and success
panels. -/
theorem idle_before_submission (s : AppState) (h : ReachableByEdits s) :
    s.result = null ∧ s.loading = false ∧ s.error = null ∧
    showsIdle s = true ∧ showsLoading s = false ∧ showsError s = false ∧
    showsSuccess s = false := by
  have inv : s.result = null ∧ s.loading = false ∧ s.error = null := by
    induction h with
    | init => exact ⟨rfl, rfl, rfl⟩
    | edit s e _ he ih => cases e <;> first | exact ih | cases he
  obtain ⟨hr, hl, he⟩ := inv
  refine ⟨hr, hl, he, ?_, ?_, ?_, ?_⟩
  · simp [showsIdle_eq, hr, hl, he, truthy]
  · simp [showsLoading_eq, hl]
  · simp [showsError_eq, he, truthy]
  · simp [showsSuccess_eq, hr, truthy]

/-- C9 at the state reached by typing a description and choosing a tone. -/
theorem idle_before_submission_witness :
    ReachableByEdits (editTone (editDescription initialState "water bottles") "Friendly and Casual") ∧
    ((editTone (editDescription initialState "water bottles") "Friendly and Casual").result = null ∧
    (editTone (editDescription initialState "water bottles") "Friendly and Casual").loading = false ∧
    (editTone (editDescription initialState "water bottles") "Friendly and Casual").error = null ∧
    showsIdle (editTone (editDescription initialState "water bottles") "Friendly and Casual") = true ∧
    showsLoading (editTone (editDescription initialState "water bottles") "Friendly and Casual") = false ∧
    showsError (editTone (editDescription initialState "water bottles") "Friendly and Casual") = false ∧
    showsSuccess (editTone (editDescription initialState "water bottles") "Friendly and Casual") = false) :=
  have h : ReachableByEdits
      (editTone (editDescription initialState "water bottles") "Friendly and Casual") :=
    ReachableByEdits.edit _ (.tone "Friendly and Casual")
      (ReachableByEdits.edit _ (.description "water bottles") ReachableByEdits.init rfl) rfl
  ⟨h, idle_before_submission _ h⟩

/-- C10: each field edit replaces its own field of `formData` by the new value
and leaves the two other fields, `result`, `loading` and `error` as they
were. -/
theorem field_edit_frame (s : AppState) (v : String) :
    ((editDescription s v).formData =
        { user_instruction := v, tone := s.formData.tone, style := s.formData.style } ∧
      (editDescription s v).result = s.result ∧ (editDescription s v).loading = s.loading ∧
      (editDescription s v).error = s.error) ∧
    ((editTone s v).formData =
        { user_instruction := s.formData.user_instruction, tone := v, style := s.formData.style } ∧
      (editTone s v).result = s.result ∧ (editTone s v).loading = s.loading ∧
      (editTone s v).error = s.error) ∧
    ((editStyle s v).formData =
        { user_instruction := s.formData.user_instruction, tone := s.formData.tone, style := v } ∧
      (editStyle s v).result = s.result ∧ (editStyle s v).loading = s.loading ∧
      (editStyle s v).error = s.error) :=
  ⟨⟨rfl, rfl, rfl, rfl⟩, ⟨rfl, rfl, rfl, rfl⟩, ⟨rfl, rfl, rfl, rfl⟩⟩

/-! ## Loading and the request in flight -/

/-- C6: when submissions are started only while the button is enabled, `loading`
is set exactly when a request awaits its response (and then exactly one does);
`handleSubmit` sets the flag before the POST and clears it when the request
settles, on the success and on the failure path; while `loading` is set the
loading panel is displayed and the button is disabled, and while it is clear the
button is enabled. -/
theorem loading_iff_in_flight (s : AppState) (h : ReachableGuarded s) :
    (s.loading = true ↔ 0 < s.pending) ∧ s.pending ≤ 1 ∧
    (handleSubmitStart s).loading = true ∧
    (∀ o, (handleSubmitSettle s o).loading = false) ∧
    (s.loading = true → showsLoading s = true ∧ submitDisabled s = true) ∧
    (s.loading = false → showsLoading s = false ∧ submitDisabled s = false) := by
  refine ⟨?_, ?_, rfl, ?_, ?_, ?_⟩
  · rcases h.loading_pending with ⟨hl, hp⟩ | ⟨hl, hp⟩ <;> simp [hl, hp]
  · rcases h.loading_pending with ⟨_, hp⟩ | ⟨_, hp⟩ <;> omega
  · intro o
    cases o <;> rfl
  · intro hl
    exact ⟨by rw [showsLoading_eq, hl], hl⟩
  · intro hl
    exact ⟨by rw [showsLoading_eq, hl], hl⟩

/-- C6 at the state in which the first request is in flight. -/
theorem loading_iff_in_flight_witness :
    ReachableGuarded (handleSubmitStart initialState) ∧
    ((handleSubmitStart initialState).loading = true ↔ 0 < (handleSubmitStart initialState).pending) ∧
    (handleSubmitStart initialState).pending ≤ 1 ∧
    (handleSubmitStart (handleSubmitStart initialState)).loading = true ∧
    (∀ o, (handleSubmitSettle (handleSubmitStart initialState) o).loading = false) ∧
    ((handleSubmitStart initialState).loading = true →
      showsLoading (handleSubmitStart initialState) = true ∧
      submitDisabled (handleSubmitStart initialState) = true) ∧
    ((handleSubmitStart initialState).loading = false →
      showsLoading (handleSubmitStart initialState) = false ∧
      submitDisabled (handleSubmitStart initialState) = false) :=
  have h : ReachableGuarded (handleSubmitStart initialState) :=
    ReachableGuarded.submit _ ReachableGuarded.init rfl
  ⟨h, loading_iff_in_flight _ h⟩

/-- When the disabled button is bypassed the equivalence of C6 is lost: after two
submissions and one response a request is still in flight while `loading` is
false. -/
theorem loading_cleared_while_in_flight :
    Reachable (run initialState [.submit, .submit, .settle (.rejected undefined)]) ∧
    (run initialState [.submit, .submit, .settle (.rejected undefined)]).loading = false ∧
    (run initialState [.submit, .submit, .settle (.rejected undefined)]).pending = 1 :=
  ⟨Reachable.settle _ (.rejected undefined)
      (Reachable.submit _ (Reachable.submit _ Reachable.init)) (by decide), rfl, rfl⟩

/-! ## The outbound request -/

/-- C7: one run of `handleSubmit` adds exactly one request to those issued so
far, whichever way it settles: a POST to the fixed URL, which ends in
`/api/generate`, whose body has exactly the fields `user_instruction`, `tone`
and `style` with the form's values at the moment of submission; the code that
runs after the response issues none. -/
theorem one_post_per_submission (s : AppState) (o : Outcome) :
    (handleSubmit s o).requests =
      s.requests ++
        [{ method := "POST"
           url := endpoint
           body := obj [("user_instruction", str s.formData.user_instruction),
                        ("tone", str s.formData.tone), ("style", str s.formData.style)] }] ∧
    (handleSubmit s o).requests.length = s.requests.length + 1 ∧
    endpoint = "http://localhost:8000" ++ "/api/generate" ∧
    (handleSubmitSettle s o).requests = s.requests := by
  refine ⟨?_, ?_, by decide, ?_⟩
  · cases o <;> rfl
  · cases o <;> simp [handleSubmit, handleSubmitSettle, handleSubmitStart]
  · cases o <;> rfl

/-! ## Failed requests -/

theorem handleSubmit_rejected_error (s : AppState) (response : JSValue) :
    (handleSubmit s (.rejected response)).error = errorMessage response := rfl

theorem errorText_handleSubmit_rejected (s : AppState) (response : JSValue) :
    errorText (handleSubmit s (.rejected response)) = (errorMessage response).childText :=
  errorText_of_truthy _ (errorMessage_truthy response)

/-- After a failure whose stored error is the string `m`, the error panel is
displayed with the text `m`. -/
theorem rejected_string_shown (s : AppState) (response : JSValue) (m : String)
    (h : errorMessage response = str m) :
    (handleSubmit s (.rejected response)).error = str m ∧
    showsError (handleSubmit s (.rejected response)) = true ∧
    errorText (handleSubmit s (.rejected response)) = some m := by
  have ht : errorText (handleSubmit s (.rejected response)) = some m := by
    rw [errorText_handleSubmit_rejected, h]
    rfl
  refine ⟨by rw [handleSubmit_rejected_error, h], ?_, ht⟩
  unfold showsError
  rw [ht]
  rfl

/-- A `detail` that is not `undefined` is read from an object body of an object
response. -/
theorem errorDetail_of_getProp {response v : JSValue}
    (h : (response.getProp "data").getProp "detail" = v) (hv : v ≠ undefined) :
    errorDetail response = v := by
  unfold errorDetail optChain
  cases response <;> first
    | (simp [getProp] at h; exact absurd h.symm hv)
    | skip
  rename_i rfields
  cases hd : (obj rfields).getProp "data" <;> rw [hd] at h <;> first
    | (simp [getProp] at h; exact absurd h.symm hv)
    | skip
  simpa [nullish, hd] using h

/-- C2, as stated, fails: for a non-2xx reply with body `{ "detail": "" }` the
`detail` field is present and holds the string `""`, yet the error stored and
displayed is the fallback text, not the detail. -/
theorem empty_detail_counterexample :
    hasOwn (obj [("detail", str "")]) "detail" = true ∧
    (handleSubmit initialState
        (.rejected (errorResponse "400" (obj [("detail", str "")])))).error =
      str "Failed to generate content" ∧
    (handleSubmit initialState
        (.rejected (errorResponse "400" (obj [("detail", str "")])))).error ≠ str "" ∧
    errorText (handleSubmit initialState
        (.rejected (errorResponse "400" (obj [("detail", str "")])))) =
      some "Failed to generate content" ∧
    errorText (handleSubmit initialState
        (.rejected (errorResponse "400" (obj [("detail", str "")])))) ≠ some "" := by
  refine ⟨by decide, rfl, ?_, by decide, by decide⟩
  intro h
  have h2 : (handleSubmit initialState
      (.rejected (errorResponse "400" (obj [("detail", str "")])))).error.truthy = true := by
    decide
  rw [h] at h2
  exact absurd h2 (by decide)

/-- C2, amended: for every failed request whose response body has a `detail`
field holding a string `d`, after `handleSubmit` the error panel is displayed;
when `d` is not empty the error state is `d` exactly and the panel shows `d`,
and when `d` is the empty string the error state and the text shown are the
fallback text `Failed to generate content`. -/
theorem detail_shown (s : AppState) (response : JSValue) (d : String)
    (hdetail : (response.getProp "data").getProp "detail" = str d) :
    (d ≠ "" →
      (handleSubmit s (.rejected response)).error = str d ∧
      showsError (handleSubmit s (.rejected response)) = true ∧
      errorText (handleSubmit s (.rejected response)) = some d) ∧
    (d = "" →
      (handleSubmit s (.rejected response)).error = str "Failed to generate content" ∧
      showsError (handleSubmit s (.rejected response)) = true ∧
      errorText (handleSubmit s (.rejected response)) = some "Failed to generate content") := by
  have hdet : errorDetail response = str d := errorDetail_of_getProp hdetail (by simp)
  constructor
  · intro hd
    apply rejected_string_shown
    unfold errorMessage JSValue.or
    rw [hdet]
    simp [truthy, hd]
  · intro hd
    apply rejected_string_shown
    unfold errorMessage JSValue.or
    rw [hdet]
    simp [truthy, hd, fallbackMessage]

/-- The amended C2 on the example of the specification, a 400 reply with body
`{ "detail": "bad input" }` while a description has been typed, and on a 400
reply with body `{ "detail": "" }`. -/
theorem detail_shown_witness :
    ((handleSubmit (editDescription initialState "water bottles")
        (.rejected (errorResponse "400" (obj [("detail", str "bad input")])))).error =
      str "bad input" ∧
    showsError (handleSubmit (editDescription initialState "water bottles")
        (.rejected (errorResponse "400" (obj [("detail", str "bad input")])))) = true ∧
    errorText (handleSubmit (editDescription initialState "water bottles")
        (.rejected (errorResponse "400" (obj [("detail", str "bad input")])))) =
      some "bad input") ∧
    ((handleSubmit (editDescription initialState "water bottles")
        (.rejected (errorResponse "400" (obj [("detail", str "")])))).error =
      str "Failed to generate content" ∧
    showsError (handleSubmit (editDescription initialState "water bottles")
        (.rejected (errorResponse "400" (obj [("detail", str "")])))) = true ∧
    errorText (handleSubmit (editDescription initialState "water bottles")
        (.rejected (errorResponse "400" (obj [("detail", str "")])))) =
      some "Failed to generate content") :=
  ⟨(detail_shown (editDescription initialState "water bottles")
      (errorResponse "400" (obj [("detail", str "bad input")])) "bad input" rfl).1 (by decide),
   (detail_shown (editDescription initialState "water bottles")
      (errorResponse "400" (obj [("detail", str "")])) "" rfl).2 rfl⟩

/-- C3: when no `detail` is available, because the error carries no response at
all, or because the body of the response is absent (`undefined`, `null` or the
empty text) or is any value without a `detail` field, `handleSubmit` stores the
fixed text `Failed to generate content` as the error and the error panel is
displayed with exactly that text. -/
theorem fallback_without_detail (s : AppState) :
    ((handleSubmit s (.rejected undefined)).error = str "Failed to generate content" ∧
      showsError (handleSubmit s (.rejected undefined)) = true ∧
      errorText (handleSubmit s (.rejected undefined)) = some "Failed to generate content") ∧
    (∀ (status : String) (data : JSValue), hasOwn data "detail" = false →
      (handleSubmit s (.rejected (errorResponse status data))).error =
        str "Failed to generate content" ∧
      showsError (handleSubmit s (.rejected (errorResponse status data))) = true ∧
      errorText (handleSubmit s (.rejected (errorResponse status data))) =
        some "Failed to generate content") := by
  have key : ∀ response, errorDetail response = undefined →
      (handleSubmit s (.rejected response)).error = str "Failed to generate content" ∧
      showsError (handleSubmit s (.rejected response)) = true ∧
      errorText (handleSubmit s (.rejected response)) = some "Failed to generate content" := by
    intro response h
    apply rejected_string_shown
    simp [errorMessage, JSValue.or, h, truthy, fallbackMessage]
  refine ⟨key undefined rfl, ?_⟩
  intro status data hdata
  apply key
  have h1 : (errorResponse status data).optChain "data" = data := by
    simp [errorResponse, optChain, nullish, getProp, List.lookup]
  unfold errorDetail
  rw [h1]
  unfold optChain
  cases data <;> simp [nullish, getProp]
  rename_i fields
  simp only [hasOwn] at hdata
  cases hl : List.lookup "detail" fields
  · rfl
  · simp [hl] at hdata

/-- C3 on three replies without a `detail`: no body, an empty object, and an
object with another field. -/
theorem fallback_without_detail_witness :
    (handleSubmit initialState (.rejected (errorResponse "500" (str "")))).error =
      str "Failed to generate content" ∧
    errorText (handleSubmit initialState (.rejected (errorResponse "500" (obj [])))) =
      some "Failed to generate content" ∧
    errorText (handleSubmit initialState
        (.rejected (errorResponse "404" (obj [("message", str "not found")])))) =
      some "Failed to generate content" :=
  ⟨((fallback_without_detail initialState).2 "500" (str "") (by decide)).1,
   ((fallback_without_detail initialState).2 "500" (obj []) (by decide)).2.2,
   ((fallback_without_detail initialState).2 "404" (obj [("message", str "not found")])
      (by decide)).2.2⟩

/-- C8 does not hold of the code: for a 422 reply whose `detail` is a list of
objects, `handleSubmit` ends with `loading` false but stores that list as the
error; it is no message, React throws on it as the child of the error panel, and
neither the error panel nor the rest of the page is displayed. -/
theorem non_string_detail_crash :
    (handleSubmit initialState
        (.rejected (errorResponse "422"
          (obj [("detail", arr [obj [("msg", str "field required")]])])))).loading = false ∧
    (handleSubmit initialState
        (.rejected (errorResponse "422"
          (obj [("detail", arr [obj [("msg", str "field required")]])])))).error =
      arr [obj [("msg", str "field required")]] ∧
    (∀ m : String, (handleSubmit initialState
        (.rejected (errorResponse "422"
          (obj [("detail", arr [obj [("msg", str "field required")]])])))).error ≠ str m) ∧
    errorText (handleSubmit initialState
        (.rejected (errorResponse "422"
          (obj [("detail", arr [obj [("msg", str "field required")]])])))) = none ∧
    showsError (handleSubmit initialState
        (.rejected (errorResponse "422"
          (obj [("detail", arr [obj [("msg", str "field required")]])])))) = false ∧
    pageRenders (handleSubmit initialState
        (.rejected (errorResponse "422"
          (obj [("detail", arr [obj [("msg", str "field required")]])])))) = false := by
  have h : (handleSubmit initialState
        (.rejected (errorResponse "422"
          (obj [("detail", arr [obj [("msg", str "field required")]])])))).error =
      arr [obj [("msg", str "field required")]] := rfl
  refine ⟨rfl, h, ?_, by decide, by decide, by decide⟩
  intro m hm
  rw [h] at hm
  cases hm

/-! ## Successful requests -/

/-- The children of the success panel can be printed when the content can, the
image prompt can whenever it is truthy, and the two metadata values can whenever
the metadata is truthy. -/
theorem renderSuccess_printable (result : JSValue)
    (hc : (result.getProp "content").printable = true)
    (hip : (result.getProp "image_prompt").truthy = true →
      (result.getProp "image_prompt").printable = true)
    (hmd : (result.getProp "metadata").truthy = true →
      ((result.getProp "metadata").getProp "processing_time").printable = true ∧
      ((result.getProp "metadata").getProp "model_type").printable = true) :
    (renderSuccess result).printable = true := by
  unfold SuccessPanel.printable renderSuccess guardSlot
  simp only [Bool.and_eq_true]
  refine ⟨⟨hc, ?_⟩, ?_⟩
  · cases h : (result.getProp "image_prompt").truthy
    · simpa using printable_of_falsy h
    · simpa using hip h
  · cases h : (result.getProp "metadata").truthy
    · simpa using printable_of_falsy h
    · simpa using hmd h

/-- After a 2xx reply the success panel and the whole page are on screen when the
body is truthy, its `success` is truthy and the children of the panel can be
printed. -/
theorem fulfilled_displayed (s : AppState) (data : JSValue)
    (hd : data.truthy = true) (hs : (data.getProp "success").truthy = true)
    (hp : (renderSuccess data).printable = true) :
    displayedSuccess (handleSubmit s (.fulfilled data)) = some (renderSuccess data) ∧
    pageRenders (handleSubmit s (.fulfilled data)) = true := by
  have hslot : (renderResults (handleSubmit s (.fulfilled data))).successPanel =
      .shown (renderSuccess data) := by
    simp [renderResults, handleSubmit, handleSubmitSettle, renderSuccessSlot, guardSlot, hd, hs]
  constructor
  · unfold displayedSuccess
    rw [hslot]
    simp [hp]
  · have hb : ∀ b : Bool, (bool b).truthy = b := fun _ => rfl
    have hn : null.truthy = false := rfl
    unfold pageRenders
    rw [hslot]
    simp [renderResults, handleSubmit, handleSubmitSettle, handleSubmitStart, guardSlot, hb, hn,
      printable, childText, hp, hd]

/-- C4, as stated, fails: the body
`{ success: true, content: "hi", image_prompt: "", metadata: null }` has an
`image_prompt` field and a `metadata` field, yet the success panel is displayed
with neither the image-prompt block nor the metadata block. -/
theorem present_field_not_rendered_counterexample :
    hasOwn (obj [("success", bool true), ("content", str "hi"), ("image_prompt", str ""),
        ("metadata", null)]) "image_prompt" = true ∧
    hasOwn (obj [("success", bool true), ("content", str "hi"), ("image_prompt", str ""),
        ("metadata", null)]) "metadata" = true ∧
    displayedSuccess (handleSubmit initialState
        (.fulfilled (obj [("success", bool true), ("content", str "hi"), ("image_prompt", str ""),
          ("metadata", null)]))) =
      some { content := str "hi", imagePrompt := .bare (str ""), metadata := .bare null } ∧
    (Slot.bare (str "") : Slot JSValue).isShown = false ∧
    (Slot.bare null : Slot (JSValue × JSValue)).isShown = false :=
  ⟨by decide, by decide, rfl, rfl, rfl⟩

/-- C4, amended: for every 2xx body with `success: true` and a string `content`
in which the `image_prompt`, when truthy, and `metadata.processing_time` and
`metadata.model_type`, when `metadata` is truthy, are values React can print
(not plain objects), after `handleSubmit` the page stays on screen and the
success panel is displayed with the content string as is; the image-prompt block
is displayed exactly when the body's `image_prompt` is truthy (a non-empty string
is, an absent field is not) and then holds that value as is; the metadata block
is displayed exactly when the body's `metadata` is truthy (an object is, an
absent field is not) and then holds its `processing_time` and `model_type` as
they are. -/
theorem success_rendered_verbatim (s : AppState) (fields : List (String × JSValue)) (c : String)
    (hs : fields.lookup "success" = some (bool true))
    (hc : fields.lookup "content" = some (str c))
    (hip : ((obj fields).getProp "image_prompt").truthy = true →
      ((obj fields).getProp "image_prompt").printable = true)
    (hmd : ((obj fields).getProp "metadata").truthy = true →
      (((obj fields).getProp "metadata").getProp "processing_time").printable = true ∧
      (((obj fields).getProp "metadata").getProp "model_type").printable = true) :
    ∃ p : SuccessPanel,
      displayedSuccess (handleSubmit s (.fulfilled (obj fields))) = some p ∧
      showsSuccess (handleSubmit s (.fulfilled (obj fields))) = true ∧
      pageRenders (handleSubmit s (.fulfilled (obj fields))) = true ∧
      p.content = str c ∧ p.content.childText = some c ∧
      p.imagePrompt.isShown = ((obj fields).getProp "image_prompt").truthy ∧
      (∀ v, p.imagePrompt = .shown v → v = (obj fields).getProp "image_prompt") ∧
      (∀ ip, fields.lookup "image_prompt" = some (str ip) → ip ≠ "" →
        p.imagePrompt = .shown (str ip)) ∧
      (fields.lookup "image_prompt" = none → p.imagePrompt.isShown = false) ∧
      p.metadata.isShown = ((obj fields).getProp "metadata").truthy ∧
      (∀ m, fields.lookup "metadata" = some (obj m) →
        p.metadata =
          .shown ((obj m).getProp "processing_time", (obj m).getProp "model_type")) ∧
      (fields.lookup "metadata" = none → p.metadata.isShown = false) := by
  have hcp : ((obj fields).getProp "content").printable = true := by
    simp [getProp, hc, printable, childText]
  have hdisp := fulfilled_displayed s (obj fields) rfl (by simp [getProp, hs, truthy])
    (renderSuccess_printable (obj fields) hcp hip hmd)
  refine ⟨renderSuccess (obj fields), hdisp.1, ?_, hdisp.2, ?_, ?_, ?_, ?_, ?_, ?_, ?_, ?_, ?_⟩
  · unfold showsSuccess
    rw [hdisp.1]
    rfl
  · simp [renderSuccess, getProp, hc]
  · simp [renderSuccess, getProp, hc, childText]
  · exact guardSlot_isShown _ _
  · intro v hv
    simp only [renderSuccess, guardSlot] at hv
    split at hv
    · injection hv with hv
      exact hv.symm
    · cases hv
  · intro ip hip hne
    simp [renderSuccess, guardSlot, getProp, hip, truthy, hne]
  · intro hnone
    simp [renderSuccess, guardSlot, getProp, hnone, truthy, Slot.isShown]
  · exact guardSlot_isShown _ _
  · intro m hm
    simp [renderSuccess, guardSlot, getProp, hm, truthy]
  · intro hnone
    simp [renderSuccess, guardSlot, getProp, hnone, truthy, Slot.isShown]

/-- The amended C4 on a body with every field of the expected response. -/
theorem success_rendered_verbatim_witness :
    ∃ p : SuccessPanel,
      displayedSuccess (handleSubmit initialState (.fulfilled (obj
        [("success", bool true), ("content", str "Stay hydrated! #eco"),
         ("image_prompt", str "a steel bottle on moss"),
         ("metadata", obj [("processing_time", str "1.2s"), ("model_type", str "cloud")])])))
        = some p ∧
      pageRenders (handleSubmit initialState (.fulfilled (obj
        [("success", bool true), ("content", str "Stay hydrated! #eco"),
         ("image_prompt", str "a steel bottle on moss"),
         ("metadata", obj [("processing_time", str "1.2s"), ("model_type", str "cloud")])])))
        = true ∧
      p.content = str "Stay hydrated! #eco" ∧
      p.imagePrompt = .shown (str "a steel bottle on moss") ∧
      p.metadata = .shown (str "1.2s", str "cloud") := by
  obtain ⟨p, h1, _, hpage, h2, _, _, _, h3, _, _, h4, _⟩ :=
    success_rendered_verbatim initialState
      [("success", bool true), ("content", str "Stay hydrated! #eco"),
       ("image_prompt", str "a steel bottle on moss"),
       ("metadata", obj [("processing_time", str "1.2s"), ("model_type", str "cloud")])]
      "Stay hydrated! #eco" rfl rfl (fun _ => rfl) (fun _ => ⟨rfl, rfl⟩)
  exact ⟨p, h1, hpage, h2, h3 "a steel bottle on moss" rfl (by decide),
    h4 [("processing_time", str "1.2s"), ("model_type", str "cloud")] rfl⟩

/-- C5, as stated, fails: after a 2xx reply with body `{ "success": false }` the
results panel displays none of the loading, error and success panels and not the
idle placeholder either. -/
theorem ok_without_success_counterexample :
    showsLoading (handleSubmit initialState (.fulfilled (obj [("success", bool false)]))) = false ∧
    showsError (handleSubmit initialState (.fulfilled (obj [("success", bool false)]))) = false ∧
    showsSuccess (handleSubmit initialState (.fulfilled (obj [("success", bool false)]))) = false ∧
    showsIdle (handleSubmit initialState (.fulfilled (obj [("success", bool false)]))) = false :=
  ⟨by decide, by decide, by decide, by decide⟩

/-- C5, amended: for every 2xx response, after `handleSubmit` the flag `loading`
is false, `error` is `null`, `result` is the body, and neither the loading panel
nor the error panel is displayed; when the body is truthy, its `success` is
truthy and React can print the children of the success panel (the content, and
the image prompt and metadata values when shown), the page stays on screen and
the success panel is displayed holding the body's `content`; when the body or
its `success` is falsy the success panel is not displayed; the idle placeholder
is displayed exactly when the body is falsy. -/
theorem ok_response_state (s : AppState) (data : JSValue) :
    (handleSubmit s (.fulfilled data)).loading = false ∧
    (handleSubmit s (.fulfilled data)).error = null ∧
    (handleSubmit s (.fulfilled data)).result = data ∧
    showsLoading (handleSubmit s (.fulfilled data)) = false ∧
    showsError (handleSubmit s (.fulfilled data)) = false ∧
    (data.truthy = true → (data.getProp "success").truthy = true →
      (renderSuccess data).printable = true →
      showsSuccess (handleSubmit s (.fulfilled data)) = true ∧
      pageRenders (handleSubmit s (.fulfilled data)) = true ∧
      ∃ p, displayedSuccess (handleSubmit s (.fulfilled data)) = some p ∧
        p.content = data.getProp "content") ∧
    ((data.truthy = false ∨ (data.getProp "success").truthy = false) →
      showsSuccess (handleSubmit s (.fulfilled data)) = false) ∧
    showsIdle (handleSubmit s (.fulfilled data)) = !data.truthy := by
  refine ⟨rfl, rfl, rfl, ?_, ?_, ?_, ?_, ?_⟩
  · rw [showsLoading_eq]; rfl
  · rw [showsError_eq]; rfl
  · intro hd hs hp
    have h := fulfilled_displayed s data hd hs hp
    refine ⟨?_, h.2, renderSuccess data, h.1, rfl⟩
    unfold showsSuccess
    rw [h.1]
    rfl
  · intro h
    rw [showsSuccess_eq]
    have hr : (handleSubmit s (.fulfilled data)).result = data := rfl
    rw [hr]
    rcases h with h | h <;> simp [h]
  · rw [showsIdle_eq]
    simp [handleSubmit, handleSubmitSettle, handleSubmitStart, truthy]

/-- The amended C5 on the body `{ success: true, content: "hi" }`, whose panel
is displayed, and on the body `{ success: false }`, whose panel is not. -/
theorem ok_response_state_witness :
    (showsSuccess (handleSubmit initialState
        (.fulfilled (obj [("success", bool true), ("content", str "hi")]))) = true ∧
      pageRenders (handleSubmit initialState
        (.fulfilled (obj [("success", bool true), ("content", str "hi")]))) = true ∧
      ∃ p, displayedSuccess (handleSubmit initialState
          (.fulfilled (obj [("success", bool true), ("content", str "hi")]))) = some p ∧
        p.content = (obj [("success", bool true), ("content", str "hi")]).getProp "content") ∧
    showsSuccess (handleSubmit initialState
        (.fulfilled (obj [("success", bool false)]))) = false :=
  ⟨(ok_response_state initialState
      (obj [("success", bool true), ("content", str "hi")])).2.2.2.2.2.1 rfl rfl rfl,
   (ok_response_state initialState
      (obj [("success", bool false)])).2.2.2.2.2.2.1 (Or.inr rfl)⟩

end App
